import Mathlib

/-!
Verification of the PULSY agentic-RAG core: a shallow embedding of the
response-validation logic (`Agentic_RAG/response_checks.py`), the tool
functions (`Agentic_RAG/tools.py`) and the bounded reasoning loop built in
`Agentic_RAG/agent.py`, together with theorems settling the frozen claims
about them.

Python dynamic values are embedded as the inductive `PyVal`; dictionary
subscripting, `in` tests, truthiness, comparison with `0`, `max`/`min` and
iteration are embedded as `Except`-valued operations that surface the same
exceptions (`KeyError`, `TypeError`, `IndexError`, `ValueError`) that the
Python operations raise.  Numeric JSON fields are modelled as integers;
values computed by true division (movement fractions, pandas means) are
modelled as exact rationals.
-/

namespace Pulsy

/-- Embedded Python/JSON value: `None`, booleans, integers, strings, lists
and string-keyed dictionaries (all dictionaries in the Oura payloads are
string-keyed).  Dictionaries are association lists; Python guarantees key
uniqueness, which the claims below never depend on. -/
inductive PyVal where
  | none
  | bool (b : Bool)
  | int (n : Int)
  | str (s : String)
  | list (xs : List PyVal)
  | dict (kvs : List (String × PyVal))

/-- Python exceptions that the embedded operations can raise. -/
inductive PyErr where
  | keyError (k : String)
  | typeError
  | indexError
  | valueError
  | runtimeError (msg : String)
deriving DecidableEq, Repr

/-- Python truthiness (`bool(v)`): `None`, `False`, `0`, `""` and empty
containers are falsy, everything else truthy. -/
def pyTruthy : PyVal → Bool
  | .none => false
  | .bool b => b
  | .int n => n != 0
  | .str s => !s.isEmpty
  | .list xs => !xs.isEmpty
  | .dict kvs => !kvs.isEmpty

/-- Show whether a value is Python `None` (`v is None`). -/
def pyIsNone : PyVal → Bool
  | .none => true
  | _ => false

/-- Dictionary lookup on the underlying association list. -/
def pyLookup (kvs : List (String × PyVal)) (k : String) : Option PyVal :=
  (kvs.find? (fun kv => kv.1 == k)).map Prod.snd

/-- Python subscripting `v[k]` with a string key: a dictionary yields the
value or raises `KeyError`; every other type raises `TypeError`. -/
def pySubscript (v : PyVal) (k : String) : Except PyErr PyVal :=
  match v with
  | .dict kvs =>
      match pyLookup kvs k with
      | some w => .ok w
      | Option.none => .error (.keyError k)
  | _ => .error .typeError

/-- Whether the character list `l` contains `pat` as a contiguous run
(substring test used by Python `k in s` on strings). -/
def charsContain : List Char → List Char → Bool
  | _, [] => true
  | [], _ :: _ => false
  | c :: cs, p :: ps => (List.isPrefixOf (p :: ps) (c :: cs)) || charsContain cs (p :: ps)

/-- Python membership `k in v` for a string `k`: key test on dictionaries,
element equality on lists (a `str` equals only an equal `str`), substring
test on strings; `TypeError` on non-containers. -/
def pyIn (k : String) (v : PyVal) : Except PyErr Bool :=
  match v with
  | .dict kvs => .ok (kvs.any (fun kv => kv.1 == k))
  | .list xs => .ok (xs.any (fun x => match x with | .str s => s == k | _ => false))
  | .str s => .ok (charsContain s.toList k.toList)
  | _ => .error .typeError

/-- Python comparison `v > 0`: defined for integers and booleans
(`True > 0` is `True`); `TypeError` otherwise (e.g. `None > 0`). -/
def pyGt0 (v : PyVal) : Except PyErr Bool :=
  match v with
  | .int n => .ok (0 < n)
  | .bool b => .ok b
  | _ => .error .typeError

/-- Python indexing `v[i]` with a non-negative integer index: list element
or `IndexError`; single character of a string; `TypeError` otherwise. -/
def pyIndex (v : PyVal) (i : Nat) : Except PyErr PyVal :=
  match v with
  | .list xs =>
      match xs.get? i with
      | some x => .ok x
      | Option.none => .error .indexError
  | .str s =>
      match s.toList.get? i with
      | some c => .ok (.str (String.singleton c))
      | Option.none => .error .indexError
  | _ => .error .typeError

/-- Coerce an embedded value to an integer for arithmetic (`//`, `%`,
`max`, `min`): integers are themselves, booleans are 0/1 as in Python,
anything else raises `TypeError`. -/
def pyAsInt (v : PyVal) : Except PyErr Int :=
  match v with
  | .int n => .ok n
  | .bool b => .ok (if b then 1 else 0)
  | _ => .error .typeError

/-- Python iteration `for x in v`: a list yields its elements, a dictionary
its keys, a string its characters; `TypeError` otherwise. -/
def pyIterList (v : PyVal) : Except PyErr (List PyVal) :=
  match v with
  | .list xs => .ok xs
  | .dict kvs => .ok (kvs.map (fun kv => .str kv.1))
  | .str s => .ok (s.toList.map (fun c => .str (String.singleton c)))
  | _ => .error .typeError

/-- Python `max(v)` on a list of numbers: `ValueError` on the empty list,
`TypeError` on non-lists or non-numeric elements. -/
def pyMax (v : PyVal) : Except PyErr PyVal :=
  match v with
  | .list [] => .error .valueError
  | .list (x :: xs) => do
      let x0 ← pyAsInt x
      let rest ← xs.mapM pyAsInt
      return .int (rest.foldl max x0)
  | _ => .error .typeError

/-- Python `min(v)` on a list of numbers, mirroring `pyMax`. -/
def pyMin (v : PyVal) : Except PyErr PyVal :=
  match v with
  | .list [] => .error .valueError
  | .list (x :: xs) => do
      let x0 ← pyAsInt x
      let rest ← xs.mapM pyAsInt
      return .int (rest.foldl min x0)
  | _ => .error .typeError

/-! ## ResponseChecks (`Agentic_RAG/response_checks.py`) -/

/-- Per-family availability booleans returned by
`ResponseChecks._check_oura_analysis` (a `defaultdict(bool)` with the three
keys `heart_rate`, `hrv`, `movement`). -/
structure OuraAnalysis where
  heart_rate : Bool
  hrv : Bool
  movement : Bool
deriving DecidableEq, Repr

/-- Result dictionary of `ResponseChecks.check_response`: the `basic` flag,
plus the `analysis` sub-dictionary when it is present. -/
structure CheckResult where
  basic : Bool
  analysis : Option OuraAnalysis
deriving DecidableEq, Repr

/-- `ResponseChecks._check_oura_basic`: returns `False` when the response
is falsy, lacks the key `data`, or has a falsy `data` value; `True`
otherwise.  Short-circuit evaluation of the `or` chain is preserved: each
later test runs only when the earlier ones passed. -/
def checkOuraBasic (response : PyVal) : Except PyErr Bool :=
  if !pyTruthy response then .ok false
  else
    match pyIn "data" response with
    | .error e => .error e
    | .ok m =>
        if !m then .ok false
        else
          match pySubscript response "data" with
          | .error e => .error e
          | .ok d => if !pyTruthy d then .ok false else .ok true

/-- `ResponseChecks._check_oura_analysis`: reads `response['data'][0]` and
computes the three family booleans with Python short-circuit `and`.  Note
that the last conjunct of the heart-rate family is
`'items' in response['heart_rate']` (and likewise `response['hrv']`), a
direct subscript that raises `KeyError` when that key is absent. -/
def checkOuraAnalysis (response : PyVal) : Except PyErr OuraAnalysis := do
  let data ← pySubscript response "data"
  let r0 ← pyIndex data 0
  let heart_rate ← do
    let m ← pyIn "average_heart_rate" r0
    if !m then pure false
    else do
      let v ← pySubscript r0 "average_heart_rate"
      if pyIsNone v then pure false
      else do
        let pos ← pyGt0 v
        if !pos then pure false
        else do
          let hrObj ← pySubscript r0 "heart_rate"
          pyIn "items" hrObj
  let hrv ← do
    let m ← pyIn "average_hrv" r0
    if !m then pure false
    else do
      let v ← pySubscript r0 "average_hrv"
      if pyIsNone v then pure false
      else do
        let pos ← pyGt0 v
        if !pos then pure false
        else do
          let hrvObj ← pySubscript r0 "hrv"
          pyIn "items" hrvObj
  let movement ← do
    let m ← pyIn "movement_30_sec" r0
    if !m then pure false
    else do
      let v ← pySubscript r0 "movement_30_sec"
      pure (!pyIsNone v)
  return ⟨heart_rate, hrv, movement⟩

/-- `ResponseChecks.check_response`: for the `oura` endpoint it always runs
the basic check, returning `{'basic': False}` on failure; at `analysis`
level it additionally runs the analysis check; every other endpoint kind
falls through to the final `return {'basic': True}`. -/
def checkResponse (response : PyVal) (endpoint_type : String) (type : String) :
    Except PyErr CheckResult :=
  if endpoint_type = "oura" then
    match checkOuraBasic response with
    | .error e => .error e
    | .ok b =>
        if !b then .ok ⟨false, Option.none⟩
        else if type = "analysis" then
          match checkOuraAnalysis response with
          | .error e => .error e
          | .ok a => .ok ⟨true, some a⟩
        else .ok ⟨true, Option.none⟩
  else .ok ⟨true, Option.none⟩

/-! ## Tool functions (`Agentic_RAG/tools.py`) -/

/-- A single-quote character, used by the Python `repr` of strings. -/
def squote : String := String.singleton (Char.ofNat 39)

mutual
/-- Python `repr(v)`: `None`/`True`/`False`, decimal integers, quoted
strings, bracketed lists and braced dictionaries (escape sequences inside
strings are not modelled; the payload strings involved contain none). -/
def pyRepr : PyVal → String
  | .none => "None"
  | .bool true => "True"
  | .bool false => "False"
  | .int n => toString n
  | .str s => squote ++ s ++ squote
  | .list xs => "[" ++ String.intercalate ", " (pyReprList xs) ++ "]"
  | .dict kvs => "\x7b" ++ String.intercalate ", " (pyReprPairs kvs) ++ "\x7d"

/-- `repr` of each element of a list. -/
def pyReprList : List PyVal → List String
  | [] => []
  | x :: xs => pyRepr x :: pyReprList xs

/-- `repr` of each `key: value` pair of a dictionary. -/
def pyReprPairs : List (String × PyVal) → List String
  | [] => []
  | kv :: kvs => (squote ++ kv.1 ++ squote ++ ": " ++ pyRepr kv.2) :: pyReprPairs kvs
end

/-- Python `str(v)` as used by f-string interpolation: a string is itself,
every other value prints as its `repr`. -/
def pyStr (v : PyVal) : String :=
  match v with
  | .str s => s
  | v => pyRepr v

/-- Fail-fast traversal of a list with an exception-raising body, as a
Python `for` loop that builds a list: the first raised exception aborts
the whole traversal. -/
def exMapM {α β : Type} (f : α → Except PyErr β) : List α → Except PyErr (List β)
  | [] => .ok []
  | x :: xs =>
      match f x with
      | .error e => .error e
      | .ok y =>
          match exMapM f xs with
          | .error e => .error e
          | .ok ys => .ok (y :: ys)

/-- The `mapping` dictionary of `sleep_analysis`, subscripted by a movement
code character; an unknown code raises `KeyError` as in Python. -/
def movementMapping (key : Char) : Except PyErr String :=
  if key = '1' then .ok "no motion"
  else if key = '2' then .ok "restless"
  else if key = '3' then .ok "tossing and turning"
  else if key = '4' then .ok "active"
  else .error (.keyError (String.singleton key))

/-- `collections.Counter(movement)` as a list of `(character, frequency)`
pairs over the distinct characters of the string.  The iteration order of
the Python `Counter` (first occurrence) is not modelled; the histogram is
treated as an order-insensitive mapping. -/
def counterChars (movement : List Char) : List (Char × Nat) :=
  movement.dedup.map (fun c => (c, movement.count c))

/-- The movement-classification loop of `sleep_analysis`: for every
`(key, freq)` of the counter, map `mapping[key]` to `freq / length` where
`length = len(movement)`; true division is modelled exactly in `Rat`. -/
def movementHistogram (movement : String) : Except PyErr (List (String × Rat)) :=
  let chars := movement.toList
  let length := chars.length
  exMapM (fun kf =>
    (movementMapping kf.1).map (fun name => (name, (kf.2 : Rat) / (length : Rat))))
    (counterChars chars)

/-- The duration formatter of `sleep_analysis`:
`f"{x // 3600} hours and {(x % 3600) // 60} minutes"`.  Python `//` and `%`
are floor division and floor modulus, i.e. `Int.fdiv` and `Int.fmod`. -/
def fmtDuration (seconds : Int) : String :=
  toString (Int.fdiv seconds 3600) ++ " hours and " ++
    toString (Int.fdiv (Int.fmod seconds 3600) 60) ++ " minutes"

/-- The durations dictionary built at the end of `sleep_analysis`: the six
duration fields of `extracted_data`, each formatted by `fmtDuration`. -/
def durationsDict (extracted_data : PyVal) : Except PyErr (List (String × String)) := do
  let total_sleep_duration ← pySubscript extracted_data "total_sleep_duration" >>= pyAsInt
  let time_in_bed ← pySubscript extracted_data "time_in_bed" >>= pyAsInt
  let rem_sleep_duration ← pySubscript extracted_data "rem_sleep_duration" >>= pyAsInt
  let light_sleep_duration ← pySubscript extracted_data "light_sleep_duration" >>= pyAsInt
  let deep_sleep_duration ← pySubscript extracted_data "deep_sleep_duration" >>= pyAsInt
  let awake_time ← pySubscript extracted_data "awake_time" >>= pyAsInt
  return [
    ("total_sleep_duration", fmtDuration total_sleep_duration),
    ("time_in_bed", fmtDuration time_in_bed),
    ("rem_sleep_duration", fmtDuration rem_sleep_duration),
    ("light_sleep_duration", fmtDuration light_sleep_duration),
    ("deep_sleep_duration", fmtDuration deep_sleep_duration),
    ("awake_time", fmtDuration awake_time)]

/-- The structured record assembled by `sleep_analysis` (the `res` list of
dictionaries): bedtime window, heart-rate block, hrv block, movement
histogram (`Option.none` models the explicit `{'movement_30_sec': None}`
entry), the verbatim readiness sub-record, and the durations strings. -/
structure SleepRecord where
  bedtime_start : PyVal
  bedtime_end : PyVal
  heart_rate_average : PyVal
  lowest_heart_rate : PyVal
  highest_heart_rate : PyVal
  hrv_average : PyVal
  hrv_min : PyVal
  hrv_max : PyVal
  movement : Option (List (String × Rat))
  readiness : PyVal
  durations : List (String × String)

/-- A tool outcome: either an early-returned message string or the
assembled analysis record. -/
inductive SleepOutcome where
  | msg (s : String)
  | record (r : SleepRecord)

/-- Body of `sleep_analysis` after the device response is in hand: response
checks, then extraction of `response['data'][0]` into a `SleepRecord`,
with explicit `None` stats for a family its availability flag rules out.
Uncaught Python exceptions (e.g. a `KeyError` escaping the checks) appear
as `Except.error`. -/
def sleepAnalysisBody (response : PyVal) : Except PyErr SleepOutcome := do
  let checks ← checkResponse response "oura" "analysis"
  if !checks.basic then
    return .msg "Data for the specified date appears to be unavailable or empty"
  let analysis ← match checks.analysis with
    | some a => pure a
    | Option.none => Except.error (PyErr.keyError "analysis")
  let data ← pySubscript response "data"
  let extracted_data ← pyIndex data 0
  let bedtime_start ← pySubscript extracted_data "bedtime_start"
  let bedtime_end ← pySubscript extracted_data "bedtime_end"
  let hrBlock ←
    if analysis.heart_rate then do
      let avg ← pySubscript extracted_data "average_heart_rate"
      let low ← pySubscript extracted_data "lowest_heart_rate"
      let hrObj ← pySubscript extracted_data "heart_rate"
      let items ← pySubscript hrObj "items"
      let high ← pyMax items
      pure (avg, low, high)
    else pure (PyVal.none, PyVal.none, PyVal.none)
  let hrvBlock ←
    if analysis.hrv then do
      let avg ← pySubscript extracted_data "average_hrv"
      let hrvObj ← pySubscript extracted_data "hrv"
      let items ← pySubscript hrvObj "items"
      let mn ← pyMin items
      let mx ← pyMax items
      pure (avg, mn, mx)
    else pure (PyVal.none, PyVal.none, PyVal.none)
  let movement ←
    if !analysis.movement then pure Option.none
    else do
      let mv ← pySubscript extracted_data "movement_30_sec"
      let s ← match mv with
        | .str s => pure s
        | _ => Except.error PyErr.typeError
      let hist ← movementHistogram s
      pure (some hist)
  let readiness ← pySubscript extracted_data "readiness"
  let durations ← durationsDict extracted_data
  return .record ⟨bedtime_start, bedtime_end, hrBlock.1, hrBlock.2.1, hrBlock.2.2,
    hrvBlock.1, hrvBlock.2.1, hrvBlock.2.2, movement, readiness, durations⟩

/-- `sleep_analysis`: the equal-dates guard runs before anything else; only
past it is the device API contacted.  `fetch` stands for the guarded
`requests.request(...).json()` call — `Except.error e` models a raised
exception whose `str(e)` text is `e`, which the surrounding `try` catches.
The returned boolean records whether the device API was contacted. -/
def sleepAnalysis (start_date : String) (end_date : String)
    (fetch : Except String PyVal) : Except PyErr SleepOutcome × Bool :=
  if start_date = end_date then
    (.ok (.msg "Please provide a different start and end date."), false)
  else
    match fetch with
    | .error e => (.ok (.msg ("Unable to retrieve sleep data due to " ++ e)), true)
    | .ok response => (sleepAnalysisBody response, true)

/-- `get_sleep_data`: the fetch is wrapped in `try/except`, so a fetch
failure returns the diagnostic string; then the response checks run at
`analysis` level, the empty/unavailable case returns its diagnostic, and
otherwise one line per element of `response["data"]` is joined with
newlines. -/
def getSleepData (fetch : Except String PyVal) : Except PyErr String :=
  match fetch with
  | .error e => .ok ("Unable to retrieve sleep data due to " ++ e)
  | .ok response => do
      let checks ← checkResponse response "oura" "analysis"
      if !checks.basic then
        return "Data for the specified date appears to be unavailable or empty"
      let data ← pySubscript response "data"
      let results ← pyIterList data
      let response_messages ← results.mapM (fun result => do
        let score ← pySubscript result "score"
        let contributors ← pySubscript result "contributors"
        let day ← pySubscript result "day"
        return "Score: " ++ pyStr score ++ ", Contributors: " ++ pyStr contributors ++
          ", Day: " ++ pyStr day)
      return String.intercalate "\n" response_messages

/-- `get_stress_data`: the fetch is NOT wrapped in `try/except` (a raised
exception propagates), the guard tests only `not response or "data" not in
response` (no emptiness test on `response['data']`), and the per-day lines
are joined with newlines — so an empty `data` list joins zero lines. -/
def getStressData (fetch : Except PyErr PyVal) : Except PyErr String := do
  let response ← fetch
  if !pyTruthy response then return "Unable to retrieve stress data"
  let m ← pyIn "data" response
  if !m then return "Unable to retrieve stress data"
  let data ← pySubscript response "data"
  let results ← pyIterList data
  let response_messages ← results.mapM (fun result => do
    let stress_high ← pySubscript result "stress_high"
    let recovery_high ← pySubscript result "recovery_high"
    let day ← pySubscript result "day"
    let day_summary ← pySubscript result "day_summary"
    return "Stress High: " ++ pyStr stress_high ++ ", Recovery High: " ++
      pyStr recovery_high ++ ", Day: " ++ pyStr day ++ ", Day Summary: " ++ pyStr day_summary)
  return String.intercalate "\n" response_messages

/-- One heart-rate reading of the `response["data"]` rows consumed by
`pd.DataFrame` in `get_heart_rate_data`: a beats-per-minute value tagged
with a source label. -/
structure HRReading where
  bpm : Int
  source : String
deriving DecidableEq, Repr

/-- A pandas floating-point scalar: a number, or `NaN` (what `.mean()`
yields on an empty selection). -/
inductive PdFloat where
  | val (q : Rat)
  | nan
deriving DecidableEq, Repr

/-- The result dictionary built by `get_heart_rate_data`. -/
structure HRAggregates where
  max_bpm : Option Int
  min_bpm : Option Int
  average_bpm_workout : PdFloat
  average_bpm_non_workout : PdFloat
deriving DecidableEq, Repr

/-- pandas `Series.max` over the `bpm` column (`Option.none` only for the
empty frame, which the code guards against). -/
def pdMaxInt : List Int → Option Int
  | [] => Option.none
  | x :: xs => some (xs.foldl max x)

/-- pandas `Series.min` over the `bpm` column. -/
def pdMinInt : List Int → Option Int
  | [] => Option.none
  | x :: xs => some (xs.foldl min x)

/-- pandas `Series.mean`: `NaN` on an empty selection, otherwise the exact
rational mean. -/
def pdMean (xs : List Int) : PdFloat :=
  match xs with
  | [] => .nan
  | _ => .val ((xs.map (fun n : Int => (n : Rat))).sum / (xs.length : Rat))

/-- Decode one row of `response["data"]` into an `HRReading`; the
`pd.DataFrame` construction is modelled on rows that carry an integer
`bpm` and a string `source` (the shape of the Oura heartrate rows). -/
def decodeReading (v : PyVal) : Except PyErr HRReading := do
  let b ← pySubscript v "bpm" >>= pyAsInt
  let src ← pySubscript v "source"
  match src with
  | .str s => return ⟨b, s⟩
  | _ => Except.error PyErr.typeError

/-- `get_heart_rate_data`: unguarded fetch, the three-clause emptiness
guard returning the diagnostic string, then the DataFrame aggregation:
overall max and min `bpm`, mean over rows whose `source == "workout"`, and
mean over all other rows. -/
def getHeartRateData (fetch : Except PyErr PyVal) : Except PyErr (String ⊕ HRAggregates) :=
  match fetch with
  | .error e => .error e
  | .ok response =>
      if !pyTruthy response then .ok (.inl "Unable to retrieve heart rate data")
      else
        match pyIn "data" response with
        | .error e => .error e
        | .ok m =>
            if !m then .ok (.inl "Unable to retrieve heart rate data")
            else
              match pySubscript response "data" with
              | .error e => .error e
              | .ok data =>
                  if !pyTruthy data then .ok (.inl "Unable to retrieve heart rate data")
                  else
                    match pyIterList data with
                    | .error e => .error e
                    | .ok rows =>
                        match exMapM decodeReading rows with
                        | .error e => .error e
                        | .ok df =>
                            .ok (.inr ⟨
                              pdMaxInt (df.map (fun r => r.bpm)),
                              pdMinInt (df.map (fun r => r.bpm)),
                              pdMean ((df.filter (fun r => r.source == "workout")).map (fun r => r.bpm)),
                              pdMean ((df.filter (fun r => !(r.source == "workout"))).map (fun r => r.bpm))⟩)

/-- One ranked match returned by the Pinecone similarity query, with the
metadata the formatting line reads. -/
structure KnowledgeHit where
  source : String
  text : String
  score : Rat

/-- `get_Andrew_Huberman_Insights`: the whole body sits in a `try` whose
only handler is `except RuntimeError`, which RE-RAISES
`RuntimeError("Pinecone Server Error")`; any other exception propagates
unchanged; on success the matches are formatted one line each and joined.
`backend` stands for the Pinecone client + embedding + query pipeline. -/
def getAndrewHubermanInsights (backend : Except PyErr (List KnowledgeHit))
    (query : String) : Except PyErr String :=
  match backend with
  | .error (.runtimeError _) => .error (.runtimeError "Pinecone Server Error")
  | .error e => .error e
  | .ok results =>
      .ok (String.intercalate "\n" (results.map (fun result =>
        "Source: " ++ result.source ++ ", Text: " ++ result.text ++
          ", Similarity: " ++ toString result.score)))

/-! ## Reasoning loop (`Agentic_RAG/agent.py`)

`AgenticRAG.build_graph` wires a LangGraph `StateGraph` as
`START → reasoner → tools_condition → (tools → reasoner | END)` and
`AgenticRAG.run` executes it with `self.react_graph.invoke(...)`, passing
no config, so LangGraph's default `recursion_limit` of 25 super-steps
applies; exceeding it raises `GraphRecursionError`, which `run` does not
catch.  The compiled graph's execution is embedded below from that wiring
plus LangGraph's documented step semantics: each node execution (reasoner
or tools) consumes one step of the remaining budget, `tools_condition`
routes to the tools node exactly when the fresh assistant message carries
at least one tool call, and exhausting the budget before reaching END is
the recursion-limit failure. -/

/-- A tool invocation requested by the reasoning capability. -/
structure ToolCallReq where
  name : String
  args : List (String × String)
deriving DecidableEq, Repr

/-- A message of the LangGraph `MessagesState`: role, text content and the
tool calls attached to an assistant message. -/
structure ChatMsg where
  role : String
  content : String
  tool_calls : List ToolCallReq
deriving DecidableEq, Repr

/-- The failure LangGraph raises when the step budget is exhausted. -/
inductive GraphErr where
  | recursionLimit
deriving DecidableEq, Repr

/-- `tools_condition`: route to the tools node iff the reasoner's fresh
message requests at least one tool call. -/
def toolsCondition (response : ChatMsg) : Bool :=
  !response.tool_calls.isEmpty

/-- Execution of the compiled graph with a step budget: budget 0 means the
next scheduled node cannot run (recursion-limit failure); otherwise the
reasoner runs (one step) and appends its message; without tool calls the
graph reaches END, with tool calls the tools node runs (a second step),
appends one result message per request, and control returns to the
reasoner. -/
def invokeLoop (llm : List ChatMsg → ChatMsg) (toolExec : ToolCallReq → ChatMsg) :
    Nat → List ChatMsg → Except GraphErr (List ChatMsg)
  | 0, _ => .error .recursionLimit
  | 1, messages =>
      let response := llm messages
      if toolsCondition response then .error .recursionLimit
      else .ok (messages ++ [response])
  | n + 2, messages =>
      let response := llm messages
      if toolsCondition response then
        invokeLoop llm toolExec n ((messages ++ [response]) ++ response.tool_calls.map toolExec)
      else .ok (messages ++ [response])

/-- LangGraph's default `recursion_limit`, in effect because
`AgenticRAG.run` invokes the graph with no config. -/
def recursionLimitDefault : Nat := 25

/-- `self.react_graph.invoke({"messages": message_history})` in
`AgenticRAG.run`. -/
def reactGraphInvoke (llm : List ChatMsg → ChatMsg) (toolExec : ToolCallReq → ChatMsg)
    (message_history : List ChatMsg) : Except GraphErr (List ChatMsg) :=
  invokeLoop llm toolExec recursionLimitDefault message_history

/-- The tail of `AgenticRAG.run`: on success the final message's content
is returned as the response; a `GraphRecursionError` is not caught and
propagates to the caller as the single failure of the request. -/
def agentRun (llm : List ChatMsg → ChatMsg) (toolExec : ToolCallReq → ChatMsg)
    (message_history : List ChatMsg) : Except GraphErr String :=
  match reactGraphInvoke llm toolExec message_history with
  | .error e => .error e
  | .ok msgs => .ok ((msgs.getLastD ⟨"", "", []⟩).content)

/-! ## Definitions written from the claims, for refinement comparison -/

/-- Basic-level pass condition as the claim words it: the response
dictionary is non-empty AND holds a non-empty (truthy) value under the
key `data`. -/
def specBasicPass (kvs : List (String × PyVal)) : Bool :=
  !kvs.isEmpty &&
    (match pyLookup kvs "data" with
     | some v => pyTruthy v
     | Option.none => false)

/-- The named state of each movement code, total over the four codes. -/
def movementCodeName (c : Char) : String :=
  if c = '1' then "no motion"
  else if c = '2' then "restless"
  else if c = '3' then "tossing and turning"
  else "active"

/-- An `extracted_data` dictionary carrying the six duration fields. -/
def mkSleepDurations (t1 t2 t3 t4 t5 t6 : Int) : PyVal :=
  .dict [("total_sleep_duration", .int t1), ("time_in_bed", .int t2),
         ("rem_sleep_duration", .int t3), ("light_sleep_duration", .int t4),
         ("deep_sleep_duration", .int t5), ("awake_time", .int t6)]

/-- A heart-rate device response `{"data": [...]}` built from readings. -/
def mkHREnvelope (rs : List HRReading) : PyVal :=
  .dict [("data", .list (rs.map (fun r =>
    .dict [("bpm", .int r.bpm), ("source", .str r.source)])))]

/-- A reasoning capability that requests a tool call on every turn. -/
def alwaysToolLlm : List ChatMsg → ChatMsg :=
  fun _ => ⟨"assistant", "", [⟨"get_sleep_data", []⟩]⟩

/-- A stub tool executor. -/
def stubToolExec : ToolCallReq → ChatMsg :=
  fun _ => ⟨"tool", "ok", []⟩

/-! ## Helper lemmas -/

theorem any_key_eq_isSome (kvs : List (String × PyVal)) (k : String) :
    kvs.any (fun kv => kv.1 == k) = (pyLookup kvs k).isSome := by
  induction kvs with
  | nil => rfl
  | cons kv rest ih =>
      cases h : kv.1 == k <;>
        simp [pyLookup, List.find?, List.any_cons, h] <;>
        simpa [pyLookup] using ih

theorem checkOuraBasic_dict (kvs : List (String × PyVal)) :
    checkOuraBasic (.dict kvs) = .ok (specBasicPass kvs) := by
  have h1 : pyTruthy (PyVal.dict kvs) = !kvs.isEmpty := rfl
  have h2 : pyIn "data" (PyVal.dict kvs) = .ok (kvs.any (fun kv => kv.1 == "data")) := rfl
  have hany := any_key_eq_isSome kvs "data"
  cases hE : kvs.isEmpty with
  | true =>
      simp only [checkOuraBasic, specBasicPass, h1, hE]
      rfl
  | false =>
      cases hL : pyLookup kvs "data" with
      | none =>
          have ha : kvs.any (fun kv => kv.1 == "data") = false := by rw [hany, hL]; rfl
          simp only [checkOuraBasic, specBasicPass, h1, h2, hE, ha, hL]
          rfl
      | some v =>
          have ha : kvs.any (fun kv => kv.1 == "data") = true := by rw [hany, hL]; rfl
          have h3 : pySubscript (PyVal.dict kvs) "data" = .ok v := by
            simp [pySubscript, hL]
          simp only [checkOuraBasic, specBasicPass, h1, h2, h3, hE, ha, hL]
          cases hT : pyTruthy v <;> simp [hT]

theorem exMapM_ok {α β : Type} (f : α → Except PyErr β) (g : α → β)
    (xs : List α) (h : ∀ x ∈ xs, f x = .ok (g x)) : exMapM f xs = .ok (xs.map g) := by
  induction xs with
  | nil => rfl
  | cons x rest ih =>
      have hx := h x (by simp)
      have hrest := ih (fun y hy => h y (by simp [hy]))
      simp only [exMapM, List.map_cons, hx, hrest]

theorem foldl_max_le_init (x : Int) (xs : List Int) : x ≤ xs.foldl max x := by
  induction xs generalizing x with
  | nil => simp
  | cons y ys ih =>
      simpa only [List.foldl_cons] using le_trans (le_max_left x y) (ih (max x y))

theorem foldl_max_le_mem (xs : List Int) (x y : Int) (h : y ∈ xs) : y ≤ xs.foldl max x := by
  induction xs generalizing x with
  | nil => cases h
  | cons z zs ih =>
      simp only [List.foldl_cons]
      rcases List.mem_cons.mp h with rfl | hz
      · exact le_trans (le_max_right x y) (foldl_max_le_init _ _)
      · exact ih (max x z) hz

theorem foldl_max_mem (xs : List Int) (x : Int) : xs.foldl max x = x ∨ xs.foldl max x ∈ xs := by
  induction xs generalizing x with
  | nil => left; rfl
  | cons z zs ih =>
      simp only [List.foldl_cons]
      rcases ih (max x z) with h | h
      · rcases max_choice x z with hm | hm
        · left; rw [h, hm]
        · right; rw [h, hm]; exact List.mem_cons_self z zs
      · right; exact List.mem_cons_of_mem z h

theorem foldl_min_le_init (x : Int) (xs : List Int) : xs.foldl min x ≤ x := by
  induction xs generalizing x with
  | nil => simp
  | cons y ys ih =>
      simpa only [List.foldl_cons] using le_trans (ih (min x y)) (min_le_left x y)

theorem foldl_min_le_mem (xs : List Int) (x y : Int) (h : y ∈ xs) : xs.foldl min x ≤ y := by
  induction xs generalizing x with
  | nil => cases h
  | cons z zs ih =>
      simp only [List.foldl_cons]
      rcases List.mem_cons.mp h with rfl | hz
      · exact le_trans (foldl_min_le_init _ _) (min_le_right x y)
      · exact ih (min x z) hz

theorem foldl_min_mem (xs : List Int) (x : Int) : xs.foldl min x = x ∨ xs.foldl min x ∈ xs := by
  induction xs generalizing x with
  | nil => left; rfl
  | cons z zs ih =>
      simp only [List.foldl_cons]
      rcases ih (min x z) with h | h
      · rcases min_choice x z with hm | hm
        · left; rw [h, hm]
        · right; rw [h, hm]; exact List.mem_cons_self z zs
      · right; exact List.mem_cons_of_mem z h

theorem list_sum_div (l : List Rat) (d : Rat) :
    (l.map (fun x => x / d)).sum = l.sum / d := by
  induction l with
  | nil => simp
  | cons x xs ih => simp [ih, add_div]

/-! ## Claim theorems -/

/-- C2: the claim that `check_response` at `analysis` level never raises is
refuted by the code — on the malformed response
`{"data": [{"average_heart_rate": 100}]}` (positive average present but
the companion `heart_rate` item-list dictionary absent) the heart-rate
conjunction reaches `'items' in response['heart_rate']` and raises
`KeyError('heart_rate')`, so neither hrv nor movement is evaluated. -/
theorem analysis_check_raises_keyerror :
    checkResponse (.dict [("data", .list [.dict [("average_heart_rate", .int 100)]])])
      "oura" "analysis" = .error (.keyError "heart_rate") := rfl

/-- C3: for every response dictionary, basic-level `check_response` returns
`{'basic': b}` without raising, and `b` is true exactly when the response
is non-empty and holds a non-empty (truthy) collection under `data`; any
missing key, null or empty collection makes it `{'basic': false}`. -/
theorem basic_check_fails_closed (kvs : List (String × PyVal)) :
    checkResponse (.dict kvs) "oura" "basic" = .ok ⟨specBasicPass kvs, Option.none⟩ := by
  have hb := checkOuraBasic_dict kvs
  simp only [checkResponse, if_pos rfl, hb]
  cases hsp : specBasicPass kvs <;> simp

/-- C10: for every response and validation level, `check_response` with an
endpoint kind other than `"oura"` skips all validation and returns
`{'basic': True}` unconditionally. -/
theorem non_oura_always_basic_true (response : PyVal) (endpoint_type type : String)
    (h : endpoint_type ≠ "oura") :
    checkResponse response endpoint_type type = .ok ⟨true, Option.none⟩ := by
  simp [checkResponse, h]

/-- Witness for C10 at a concrete non-oura endpoint and an empty response. -/
theorem non_oura_always_basic_true_witness :
    checkResponse (.dict []) "fitbit" "analysis" = .ok ⟨true, Option.none⟩ :=
  non_oura_always_basic_true (.dict []) "fitbit" "analysis" (by decide)

/-- C4: whenever the start and end dates are equal, `sleep_analysis`
returns the diagnostic message telling the caller to vary the range —
no exception, no analysis record — and the device API is not contacted
(the contact flag is `false`, for every possible fetch outcome). -/
theorem equal_dates_diagnostic (start_date end_date : String)
    (fetch : Except String PyVal) (h : start_date = end_date) :
    sleepAnalysis start_date end_date fetch =
      (.ok (.msg "Please provide a different start and end date."), false) := by
  simp [sleepAnalysis, h]

/-- Witness for C4 at one concrete date. -/
theorem equal_dates_diagnostic_witness :
    sleepAnalysis "2025-10-03" "2025-10-03" (.ok (.dict [])) =
      (.ok (.msg "Please provide a different start and end date."), false) :=
  equal_dates_diagnostic "2025-10-03" "2025-10-03" (.ok (.dict [])) rfl

/-- C5: the claim that every per-day extractor returns a non-empty
diagnostic on empty or absent `data` fails for `get_stress_data`, whose
guard omits the emptiness test its siblings have: on `{"data": []}` it
joins zero lines and returns the EMPTY string.  The sibling extractors do
return the diagnostic: `get_stress_data` on absent `data`, and
`get_sleep_data` / `get_heart_rate_data` on empty `data`. -/
theorem stress_empty_data_yields_empty_string :
    getStressData (.ok (.dict [("data", .list [])])) = .ok "" ∧
    getStressData (.ok (.dict [])) = .ok "Unable to retrieve stress data" ∧
    getSleepData (.ok (.dict [("data", .list [])])) =
      .ok "Data for the specified date appears to be unavailable or empty" ∧
    getHeartRateData (.ok (.dict [("data", .list [])])) =
      .ok (.inl "Unable to retrieve heart rate data") :=
  ⟨rfl, rfl, rfl, rfl⟩

/-- C6: the duration formatter maps `s` seconds to
`"H hours and M minutes"` with `H = s // 3600` and `M = (s % 3600) // 60`
(floor division, no rounding up), `5025` yields exactly
`"1 hours and 23 minutes"`, and the durations dictionary applies this rule
to total sleep, time in bed, REM, light, deep sleep and awake time. -/
theorem duration_formatting_rule :
    fmtDuration 5025 = "1 hours and 23 minutes" ∧
    (∀ s : Int, fmtDuration s =
      toString (Int.fdiv s 3600) ++ " hours and " ++
        toString (Int.fdiv (Int.fmod s 3600) 60) ++ " minutes") ∧
    (∀ t1 t2 t3 t4 t5 t6 : Int,
      durationsDict (mkSleepDurations t1 t2 t3 t4 t5 t6) =
        .ok [("total_sleep_duration", fmtDuration t1), ("time_in_bed", fmtDuration t2),
             ("rem_sleep_duration", fmtDuration t3), ("light_sleep_duration", fmtDuration t4),
             ("deep_sleep_duration", fmtDuration t5), ("awake_time", fmtDuration t6)]) :=
  ⟨rfl, fun _ => rfl, fun _ _ _ _ _ _ => rfl⟩

/-- C9 counterexample: the claim that no tool propagates an exception is
refuted by the knowledge tool — on a knowledge-backend `RuntimeError` it
raises `RuntimeError("Pinecone Server Error")` instead of returning a
diagnostic string. -/
theorem huberman_raises_on_backend_failure :
    getAndrewHubermanInsights (.error (.runtimeError "connection refused")) "sleep tips" =
      .error (.runtimeError "Pinecone Server Error") := rfl

/-- C9 amended: the sleep tools catch device-API fetch failures and return
a diagnostic string, but the knowledge tool re-raises a fixed
`RuntimeError` on backend failure, and the stress and heart-rate tools
propagate fetch exceptions uncaught. -/
theorem tool_failure_policy :
    (∀ (start_date end_date e : String), start_date ≠ end_date →
      sleepAnalysis start_date end_date (.error e) =
        (.ok (.msg ("Unable to retrieve sleep data due to " ++ e)), true)) ∧
    (∀ e : String, getSleepData (.error e) =
      .ok ("Unable to retrieve sleep data due to " ++ e)) ∧
    (∀ (msg query : String),
      getAndrewHubermanInsights (.error (.runtimeError msg)) query =
        .error (.runtimeError "Pinecone Server Error")) ∧
    (∀ e : PyErr, getStressData (.error e) = .error e) ∧
    (∀ e : PyErr, getHeartRateData (.error e) = .error e) := by
  refine ⟨?_, fun _ => rfl, fun _ _ => rfl, ?_, fun _ => rfl⟩
  · intro s e estr h
    simp [sleepAnalysis, h]
  · intro e
    rfl

/-- Witness for C9 amended, combining the conditional branch at concrete
dates with a concrete fetch failure. -/
theorem tool_failure_policy_witness :
    sleepAnalysis "2025-10-01" "2025-10-02" (.error "timeout") =
      (.ok (.msg "Unable to retrieve sleep data due to timeout"), true) :=
  tool_failure_policy.1 "2025-10-01" "2025-10-02" "timeout" (by decide)

theorem invokeLoop_always_tools (llm : List ChatMsg → ChatMsg) (toolExec : ToolCallReq → ChatMsg)
    (h : ∀ msgs, (llm msgs).tool_calls ≠ []) :
    ∀ (n : Nat) (messages : List ChatMsg),
      invokeLoop llm toolExec n messages = .error .recursionLimit := by
  have hcond : ∀ messages, toolsCondition (llm messages) = true := by
    intro messages
    cases hcalls : (llm messages).tool_calls with
    | nil => exact absurd hcalls (h messages)
    | cons a as => simp [toolsCondition, hcalls]
  intro n
  induction n using Nat.twoStepInduction with
  | zero => intro messages; rfl
  | one => intro messages; simp [invokeLoop, hcond]
  | more n ih _ => intro messages; simp [invokeLoop, hcond, ih]

/-- C1: for every reasoning capability that requests at least one tool
call on every turn, `AgenticRAG.run`'s graph invocation terminates at the
recursion limit with the single aggregated `GraphRecursionError` surfaced
to the caller — never an unbounded loop, never a partial answer. -/
theorem reasoning_loop_bounded (llm : List ChatMsg → ChatMsg) (toolExec : ToolCallReq → ChatMsg)
    (h : ∀ msgs, (llm msgs).tool_calls ≠ []) (message_history : List ChatMsg) :
    agentRun llm toolExec message_history = .error .recursionLimit := by
  unfold agentRun reactGraphInvoke
  rw [invokeLoop_always_tools llm toolExec h recursionLimitDefault message_history]

/-- Witness for C1 with a concrete always-tool-calling capability. -/
theorem reasoning_loop_bounded_witness :
    agentRun alwaysToolLlm stubToolExec [] = .error .recursionLimit :=
  reasoning_loop_bounded alwaysToolLlm stubToolExec (fun _ => by simp [alwaysToolLlm]) []

/-- C7: for every non-empty movement string over the codes 1-4, the
movement histogram succeeds, maps each occurring code's named state to its
frequency divided by the string length, and its values sum to exactly 1
(hence within the 1e-6 tolerance). -/
theorem movement_histogram_fractions (movement : String)
    (hne : movement.toList ≠ [])
    (hcodes : ∀ c ∈ movement.toList, c = '1' ∨ c = '2' ∨ c = '3' ∨ c = '4') :
    ∃ hist, movementHistogram movement = .ok hist ∧
      (hist.map (fun e => e.2)).sum = 1 ∧
      ∀ c ∈ movement.toList,
        (movementCodeName c,
          ((movement.toList.count c : Rat) / (movement.toList.length : Rat))) ∈ hist := by
  have hmapname : ∀ c ∈ movement.toList, movementMapping c = .ok (movementCodeName c) := by
    intro c hc
    rcases hcodes c hc with rfl | rfl | rfl | rfl <;> rfl
  have hrun : movementHistogram movement =
      .ok ((counterChars movement.toList).map (fun kf =>
        (movementCodeName kf.1, (kf.2 : Rat) / (movement.toList.length : Rat)))) := by
    simp only [movementHistogram]
    apply exMapM_ok
    intro kf hkf
    have hk1 : kf.1 ∈ movement.toList := by
      rcases List.mem_map.mp hkf with ⟨c, hc, rfl⟩
      exact List.mem_dedup.mp hc
    rw [hmapname kf.1 hk1]
    rfl
  refine ⟨_, hrun, ?_, ?_⟩
  · have h1 : (((counterChars movement.toList).map (fun kf =>
        (movementCodeName kf.1, (kf.2 : Rat) / (movement.toList.length : Rat)))).map
          (fun e => e.2)) =
        (movement.toList.dedup.map (fun c => (movement.toList.count c : Rat))).map
          (fun x => x / (movement.toList.length : Rat)) := by
      simp only [counterChars, List.map_map]
      rfl
    rw [h1, list_sum_div]
    have h2 : ((movement.toList.dedup.map (fun c => movement.toList.count c)).sum : Rat) =
        (movement.toList.dedup.map (fun c => (movement.toList.count c : Rat))).sum := by
      rw [Nat.cast_list_sum, List.map_map]
      rfl
    rw [← h2, List.sum_map_count_dedup_eq_length]
    have hL : ((movement.toList.length : Nat) : Rat) ≠ 0 := by
      have h0 : movement.toList.length ≠ 0 := by
        intro h0
        exact hne (List.length_eq_zero.mp h0)
      exact Nat.cast_ne_zero.mpr h0
    exact div_self hL
  · intro c hc
    have hdc : c ∈ movement.toList.dedup := List.mem_dedup.mpr hc
    have hcnt : (c, movement.toList.count c) ∈ counterChars movement.toList :=
      List.mem_map_of_mem (fun c => (c, movement.toList.count c)) hdc
    exact List.mem_map_of_mem _ hcnt

/-- Witness for C7 at the concrete movement string 1123. -/
theorem movement_histogram_fractions_witness :
    ∃ hist, movementHistogram "1123" = .ok hist ∧
      (hist.map (fun e => e.2)).sum = 1 ∧
      ∀ c ∈ ("1123").toList,
        (movementCodeName c,
          ((("1123").toList.count c : Rat) / (("1123").toList.length : Rat))) ∈ hist :=
  movement_histogram_fractions "1123" (by decide) (by decide)

theorem decode_encode (r : HRReading) :
    decodeReading (.dict [("bpm", .int r.bpm), ("source", .str r.source)]) = .ok r := rfl

theorem exMapM_encode (rs : List HRReading) :
    exMapM decodeReading (rs.map (fun x =>
      PyVal.dict [("bpm", .int x.bpm), ("source", .str x.source)])) = .ok rs := by
  induction rs with
  | nil => rfl
  | cons x rest ih =>
      rw [List.map_cons]
      simp only [exMapM]
      rw [decode_encode x, ih]

theorem getHeartRateData_envelope (rs : List HRReading) (h : rs ≠ []) :
    getHeartRateData (.ok (mkHREnvelope rs)) =
      .ok (.inr ⟨pdMaxInt (rs.map (fun r => r.bpm)), pdMinInt (rs.map (fun r => r.bpm)),
        pdMean ((rs.filter (fun r => r.source == "workout")).map (fun r => r.bpm)),
        pdMean ((rs.filter (fun r => !(r.source == "workout"))).map (fun r => r.bpm))⟩) := by
  obtain ⟨r, rs', rfl⟩ := List.exists_cons_of_ne_nil h
  have henc := exMapM_encode (r :: rs')
  rw [List.map_cons] at henc
  simp [getHeartRateData, mkHREnvelope, pyTruthy, pyIn, pySubscript, pyLookup,
    pyIterList, henc]

theorem pdMean_spec (xs : List Int) :
    (xs = [] ∧ pdMean xs = .nan) ∨
    (∃ q, pdMean xs = .val q ∧
      q * (xs.length : Rat) = (xs.map (fun n : Int => (n : Rat))).sum) := by
  cases xs with
  | nil => exact Or.inl ⟨rfl, rfl⟩
  | cons x l =>
      refine Or.inr ⟨_, rfl, ?_⟩
      have hlen : (((x :: l).length : Nat) : Rat) ≠ 0 := by
        rw [List.length_cons]
        exact_mod_cast Nat.succ_ne_zero l.length
      rw [div_mul_cancel₀ _ hlen]

/-- C8 amended: on every response whose reading set is non-empty, the
heart-rate tool returns the aggregate record whose `max_bpm` / `min_bpm`
are the greatest and least bpm of the readings, and whose workout and
non-workout means are the exact mean of the matching readings (`NaN` when
no reading matches); the empty reading set never reaches aggregation —
the tool returns the diagnostic string instead (see the counterexample
theorem). -/
theorem heart_rate_aggregation (rs : List HRReading) (h : rs ≠ []) :
    ∃ agg : HRAggregates,
      getHeartRateData (.ok (mkHREnvelope rs)) = .ok (.inr agg) ∧
      (∃ m, agg.max_bpm = some m ∧ m ∈ rs.map (fun r => r.bpm) ∧
        ∀ b ∈ rs.map (fun r => r.bpm), b ≤ m) ∧
      (∃ m, agg.min_bpm = some m ∧ m ∈ rs.map (fun r => r.bpm) ∧
        ∀ b ∈ rs.map (fun r => r.bpm), m ≤ b) ∧
      (((rs.filter (fun r => r.source == "workout")) = [] ∧
          agg.average_bpm_workout = .nan) ∨
        (∃ q, agg.average_bpm_workout = .val q ∧
          q * (((rs.filter (fun r => r.source == "workout")).length : Rat)) =
            ((rs.filter (fun r => r.source == "workout")).map (fun r => (r.bpm : Rat))).sum)) ∧
      (((rs.filter (fun r => !(r.source == "workout"))) = [] ∧
          agg.average_bpm_non_workout = .nan) ∨
        (∃ q, agg.average_bpm_non_workout = .val q ∧
          q * (((rs.filter (fun r => !(r.source == "workout"))).length : Rat)) =
            ((rs.filter (fun r => !(r.source == "workout"))).map (fun r => (r.bpm : Rat))).sum)) := by
  refine ⟨_, getHeartRateData_envelope rs h, ?_, ?_, ?_, ?_⟩
  · obtain ⟨r, rs', rfl⟩ := List.exists_cons_of_ne_nil h
    rw [List.map_cons]
    refine ⟨(rs'.map (fun x : HRReading => x.bpm)).foldl max r.bpm, rfl, ?_, ?_⟩
    · rcases foldl_max_mem (rs'.map (fun x : HRReading => x.bpm)) r.bpm with hm | hm
      · rw [hm]; exact List.mem_cons_self _ _
      · exact List.mem_cons_of_mem _ hm
    · intro b hb
      rcases List.mem_cons.mp hb with rfl | hb
      · exact foldl_max_le_init _ _
      · exact foldl_max_le_mem _ _ _ hb
  · obtain ⟨r, rs', rfl⟩ := List.exists_cons_of_ne_nil h
    rw [List.map_cons]
    refine ⟨(rs'.map (fun x : HRReading => x.bpm)).foldl min r.bpm, rfl, ?_, ?_⟩
    · rcases foldl_min_mem (rs'.map (fun x : HRReading => x.bpm)) r.bpm with hm | hm
      · rw [hm]; exact List.mem_cons_self _ _
      · exact List.mem_cons_of_mem _ hm
    · intro b hb
      rcases List.mem_cons.mp hb with rfl | hb
      · exact foldl_min_le_init _ _
      · exact foldl_min_le_mem _ _ _ hb
  · rcases pdMean_spec ((rs.filter (fun r => r.source == "workout")).map (fun r => r.bpm)) with
      ⟨hnil, hnan⟩ | ⟨q, hq, hsum⟩
    · exact Or.inl ⟨List.map_eq_nil_iff.mp hnil, hnan⟩
    · refine Or.inr ⟨q, hq, ?_⟩
      rw [List.map_map, List.length_map] at hsum
      exact hsum
  · rcases pdMean_spec ((rs.filter (fun r => !(r.source == "workout"))).map (fun r => r.bpm)) with
      ⟨hnil, hnan⟩ | ⟨q, hq, hsum⟩
    · exact Or.inl ⟨List.map_eq_nil_iff.mp hnil, hnan⟩
    · refine Or.inr ⟨q, hq, ?_⟩
      rw [List.map_map, List.length_map] at hsum
      exact hsum

/-- Witness for C8 amended at a concrete two-reading response. -/
theorem heart_rate_aggregation_witness :
    ∃ agg : HRAggregates,
      getHeartRateData (.ok (mkHREnvelope [⟨70, "workout"⟩, ⟨80, "awake"⟩])) =
        .ok (.inr agg) :=
  ((heart_rate_aggregation [⟨70, "workout"⟩, ⟨80, "awake"⟩] (by decide)).elim
    (fun agg hagg => ⟨agg, hagg.1⟩))

/-- C8 counterexample: on the empty reading set `{"data": []}` the tool
returns the diagnostic string, not a record of four nulls — the claim's
"all four outputs are explicitly null" branch never happens. -/
theorem heart_rate_empty_returns_diagnostic :
    getHeartRateData (.ok (.dict [("data", .list [])])) =
      .ok (.inl "Unable to retrieve heart rate data") := rfl

end Pulsy
